import Mathlib

/-!
Shallow embedding of the delay-based bandwidth estimator
(`src/modules/congestion_controller/delay_based_bwe.cc`) and of the one-byte
RTP header-extension parser (`src/modules/rtp_rtcp/source/rtp_utility.cc`).

Machine integers are modelled as `Int`/`Nat`; the `float` cluster means are
modelled as `ℚ` (every accumulated value is an integer and every division in
the claims' scenarios is exact, so `ℚ` is the faithful idealization of the
source's `float` arithmetic on these inputs).  Components whose sources are
not in the repository snapshot (aimd_rate_control, inter_arrival,
overuse_estimator, overuse_detector, rate_statistics, and the constants of
delay_based_bwe.h / paced_sender.h) are modelled from the specification; each
such definition carries a doc comment saying so.
-/

namespace PercWebrtc

/-! ### Constants (anonymous namespace of delay_based_bwe.cc) -/

def kTimestampGroupLengthMs : Nat := 5
def kAbsSendTimeFraction : Nat := 18
def kAbsSendTimeInterArrivalUpshift : Nat := 8
def kInterArrivalShift : Nat := kAbsSendTimeFraction + kAbsSendTimeInterArrivalUpshift
def kInitialProbingIntervalMs : Int := 2000
def kMinClusterSize : Nat := 4
def kMaxProbePackets : Nat := 15
def kExpectedNumberOfProbes : Nat := 3

def kTimestampToMs : ℚ := 1000 / 2 ^ kInterArrivalShift

/-- Modelled from the spec: `kStreamTimeOutMs` is declared in
remote_bitrate_estimator.h, which is not under src/; spec section 4.G fixes the
SSRC timeout at 2000 ms. -/
def kStreamTimeOutMs : Int := 2000

/-- Modelled from the spec: `PacedSender::kMinProbePacketSize` lives in
paced_sender.h, which is not under src/; spec section 4.G (and the comment in
delay_based_bwe.cc) fix the pacing threshold at 200 bytes. -/
def kMinProbePacketSize : Nat := 200

def kBitrateWindowMs : Int := 1000

/-- `PacketInfo::kNotAProbe`. -/
def kNotAProbe : Int := -1

/-- `ConvertMsTo24Bits` from delay_based_bwe.cc. -/
def convertMsTo24Bits (time_ms : Nat) : Nat :=
  (((time_ms <<< kAbsSendTimeFraction) + 500) / 1000) &&& 0xFFFFFF

/-- The conversion `static_cast<int64_t>(timestamp) * kTimestampToMs` from
`IncomingPacketInfo`.  `kTimestampToMs = 1000/2^26 = 125/2^23` and
`timestamp < 2^32`, so the double product is exact and the int64 cast
truncates it: the faithful integer form is a floor division. -/
def sendTimeMsOfTimestamp (timestamp : Nat) : Int :=
  ((timestamp * 1000) / 2 ^ kInterArrivalShift : Nat)

/-! ### Probes and clusters (DelayBasedBwe::Probe / DelayBasedBwe::Cluster) -/

structure Probe where
  send_time_ms : Int
  recv_time_ms : Int
  payload_size : Nat
  cluster_id : Int
deriving DecidableEq

/-- `DelayBasedBwe::Cluster`.  During `ComputeClusters` the mean fields hold
running sums; `AddCluster` divides them by `count`.  The `float` fields
`send_mean_ms`/`recv_mean_ms` are modelled as `ℚ`. -/
structure Cluster where
  send_mean_ms : ℚ
  recv_mean_ms : ℚ
  mean_size : Nat
  count : Nat
  num_above_min_delta : Nat
deriving DecidableEq

def emptyCluster : Cluster :=
  { send_mean_ms := 0, recv_mean_ms := 0, mean_size := 0, count := 0,
    num_above_min_delta := 0 }

/-- Truncation of a rational toward zero, the effect of C's float-to-int cast. -/
def ratTruncToInt (q : ℚ) : Int := q.num.tdiv (q.den : Int)

/-- `Cluster::GetSendBitrateBps`.  Declared in delay_based_bwe.h (not under
src/); modelled from the spec formula `send_bps = mean_size*8*1000 /
mean_send_delta_ms`, which also matches the logging expression in
`FindBestProbe` (`it->mean_size * 8 * 1000 / it->send_mean_ms`). -/
def Cluster.GetSendBitrateBps (c : Cluster) : Int :=
  ratTruncToInt ((c.mean_size * 8 * 1000 : ℚ) / c.send_mean_ms)

/-- `Cluster::GetRecvBitrateBps`; see `Cluster.GetSendBitrateBps`. -/
def Cluster.GetRecvBitrateBps (c : Cluster) : Int :=
  ratTruncToInt ((c.mean_size * 8 * 1000 : ℚ) / c.recv_mean_ms)

/-- `std::min(it->GetSendBitrateBps(), it->GetRecvBitrateBps())`. -/
def minBitrateBps (c : Cluster) : Int :=
  min c.GetSendBitrateBps c.GetRecvBitrateBps

/-- `DelayBasedBwe::AddCluster`: divide the accumulated sums by `count`
(float division for the means, integer division for `mean_size`). -/
def finalizeCluster (c : Cluster) : Cluster :=
  { c with
    send_mean_ms := c.send_mean_ms / (c.count : ℚ),
    recv_mean_ms := c.recv_mean_ms / (c.count : ℚ),
    mean_size := c.mean_size / c.count }

/-- Loop state of `DelayBasedBwe::ComputeClusters`. -/
structure ClusterAccState where
  clusters : List Cluster
  current : Cluster
  prev_send_time : Int
  prev_recv_time : Int
  last_probe_cluster_id : Int
deriving DecidableEq

def ccInit : ClusterAccState :=
  { clusters := [], current := emptyCluster, prev_send_time := -1,
    prev_recv_time := -1, last_probe_cluster_id := -1 }

/-- One iteration of the loop body of `DelayBasedBwe::ComputeClusters`. -/
def computeClustersStep (s : ClusterAccState) (p : Probe) : ClusterAccState :=
  let last0 : Int :=
    if s.last_probe_cluster_id = -1 then p.cluster_id else s.last_probe_cluster_id
  if 0 ≤ s.prev_send_time then
    let send_delta : Int := p.send_time_ms - s.prev_send_time
    let recv_delta : Int := p.recv_time_ms - s.prev_recv_time
    let cur1 :=
      if 1 ≤ send_delta ∧ 1 ≤ recv_delta then
        { s.current with num_above_min_delta := s.current.num_above_min_delta + 1 }
      else s.current
    let clusters1 :=
      if p.cluster_id ≠ last0 then
        if kMinClusterSize ≤ cur1.count then s.clusters ++ [finalizeCluster cur1]
        else s.clusters
      else s.clusters
    let cur2 := if p.cluster_id ≠ last0 then emptyCluster else cur1
    let cur3 :=
      { cur2 with
        send_mean_ms := cur2.send_mean_ms + (send_delta : ℚ),
        recv_mean_ms := cur2.recv_mean_ms + (recv_delta : ℚ),
        mean_size := cur2.mean_size + p.payload_size,
        count := cur2.count + 1 }
    { clusters := clusters1, current := cur3, prev_send_time := p.send_time_ms,
      prev_recv_time := p.recv_time_ms, last_probe_cluster_id := p.cluster_id }
  else
    { s with prev_send_time := p.send_time_ms, prev_recv_time := p.recv_time_ms,
             last_probe_cluster_id := last0 }

/-- `DelayBasedBwe::ComputeClusters`. -/
def computeClusters (probes : List Probe) : List Cluster :=
  let s := probes.foldl computeClustersStep ccInit
  if kMinClusterSize ≤ s.current.count then s.clusters ++ [finalizeCluster s.current]
  else s.clusters

/-! ### FindBestProbe -/

/-- The guard `it->send_mean_ms == 0 || it->recv_mean_ms == 0` that makes
`FindBestProbe` `continue` past a cluster. -/
def clusterHasZeroMean (c : Cluster) : Bool :=
  decide (c.send_mean_ms = 0) || decide (c.recv_mean_ms = 0)

/-- The qualification test of `FindBestProbe`:
`num_above_min_delta > count/2 && recv_mean - send_mean <= 2.0f &&
send_mean - recv_mean <= 5.0f`. -/
def probeQualifies (c : Cluster) : Bool :=
  decide (c.count / 2 < c.num_above_min_delta) &&
  decide (c.recv_mean_ms - c.send_mean_ms ≤ 2) &&
  decide (c.send_mean_ms - c.recv_mean_ms ≤ 5)

/-- Loop of `DelayBasedBwe::FindBestProbe`: `highest` is
`highest_probe_bitrate_bps`, `best` is `best_it`; a non-qualifying cluster
with non-zero means `break`s the scan. -/
def findBestProbeGo : List Cluster → Int → Option Cluster → Option Cluster
  | [], _, best => best
  | c :: rest, highest, best =>
    if clusterHasZeroMean c then findBestProbeGo rest highest best
    else if probeQualifies c then
      if highest < minBitrateBps c then findBestProbeGo rest (minBitrateBps c) (some c)
      else findBestProbeGo rest highest best
    else best

/-- `DelayBasedBwe::FindBestProbe`. -/
def findBestProbe (clusters : List Cluster) : Option Cluster :=
  findBestProbeGo clusters 0 none

/-! ### Spec-modelled sub-components

The sources of `AimdRateControl`, `RateStatistics` (the rate counter),
`OveruseEstimator`, `OveruseDetector` and `InterArrival` are not in the
repository snapshot; only `delay_based_bwe.cc` uses them.  They are modelled
from the specification, to the depth the claims need. -/

/-- Modelled from the spec: `aimd_rate_control.{h,cc}` is not under src/.
Only the interface consumed by delay_based_bwe.cc is modelled.  Per spec
section 4.F.4, `SetEstimate` seeds the controller with the probe bitrate and
per section 8 property 4 the next emitted target equals that bitrate; absent
congestion signals and an incoming-rate measurement, `Update` leaves the
modelled fields alone (section 4.D Hold path) and `UpdateBandwidthEstimate`
returns the current bitrate. -/
structure AimdRateControl where
  valid : Bool
  latest_bps : Nat
  rtt_ms : Int
  min_bitrate_bps : Int
  last_bitrate_decrease_ms : Int
deriving DecidableEq

def initAimdRateControl : AimdRateControl :=
  { valid := false, latest_bps := 0, rtt_ms := 200, min_bitrate_bps := 0,
    last_bitrate_decrease_ms := -1 }

/-- `AimdRateControl::ValidEstimate`. -/
def aimdValidEstimate (rr : AimdRateControl) : Bool := rr.valid

/-- `AimdRateControl::LatestEstimate` (uint32_t). -/
def aimdLatestEstimate (rr : AimdRateControl) : Nat := rr.latest_bps

/-- `AimdRateControl::SetEstimate`: modelled from spec section 4.F.4 (seed the
controller with the probe bitrate and mark it valid). -/
def aimdSetEstimate (rr : AimdRateControl) (bitrate_bps : Int) (_now_ms : Int) :
    AimdRateControl :=
  { rr with valid := true, latest_bps := bitrate_bps.toNat }

/-- `AimdRateControl::SetRtt`. -/
def aimdSetRtt (rr : AimdRateControl) (avg_rtt_ms : Int) : AimdRateControl :=
  { rr with rtt_ms := avg_rtt_ms }

/-- `AimdRateControl::SetMinBitrate`. -/
def aimdSetMinBitrate (rr : AimdRateControl) (min_bitrate_bps : Int) :
    AimdRateControl :=
  { rr with min_bitrate_bps := min_bitrate_bps }

/-- Modelled from the spec: the feedback interval lies in [200, 1000] ms
(section 4.D); its exact value involves a natural logarithm, is needed by no
claim, and is modelled as the lower clamp. -/
def aimdGetFeedbackInterval (_rr : AimdRateControl) : Int := 200

/-- Modelled from the spec, section 4.D TimeToReduceFurther. -/
def aimdTimeToReduceFurther (rr : AimdRateControl) (now_ms : Int)
    (incoming_rate_bps : Nat) : Bool :=
  decide (aimdGetFeedbackInterval rr / 2 ≤ now_ms - rr.last_bitrate_decrease_ms) &&
  decide ((3 : ℚ) / 2 * incoming_rate_bps + 10000 < (rr.latest_bps : ℚ))

inductive BandwidthUsage
  | kBwNormal
  | kBwUnderusing
  | kBwOverusing
deriving DecidableEq

/-- `RateControlInput` (the struct passed to `AimdRateControl::Update`). -/
structure RateControlInput where
  bw_state : BandwidthUsage
  incoming_bitrate : Option Nat
  noise_var : ℚ
deriving DecidableEq

/-- Modelled from the spec: with no congestion signal acted on by any claim,
`Update` leaves the modelled fields unchanged (section 4.D: Hold makes no
bitrate change, and validity flips only through `SetEstimate` during the
probing phase the claims exercise). -/
def aimdUpdate (rr : AimdRateControl) (_input : RateControlInput)
    (_now_ms : Int) : AimdRateControl :=
  rr

/-- Modelled from the spec: `UpdateBandwidthEstimate` returns the current
target (section 8 property 4: after a probe seeds the controller, the emitted
target equals the probe bitrate). -/
def aimdUpdateBandwidthEstimate (rr : AimdRateControl) (_now_ms : Int) : Nat :=
  rr.latest_bps

/-- Modelled from the spec, section 4.E: sliding-window throughput meter.
`samples` holds `(bytes, time_ms)` pairs no older than the 1 s window;
`first_update_ms` remembers the very first feed.  `rate` is `none` until the
window has been filled for 500 ms and holds at least two samples. -/
structure RateCounter where
  samples : List (Nat × Int)
  first_update_ms : Option Int
deriving DecidableEq

def initRateCounter : RateCounter := { samples := [], first_update_ms := none }

def rateCounterUpdate (rc : RateCounter) (size : Nat) (now_ms : Int) : RateCounter :=
  { samples := ((rc.samples ++ [(size, now_ms)]).filter
      fun s => decide (now_ms - s.2 < kBitrateWindowMs)),
    first_update_ms := some (rc.first_update_ms.getD now_ms) }

def rateCounterRate (rc : RateCounter) (now_ms : Int) : Option Nat :=
  match rc.first_update_ms with
  | none => none
  | some t0 =>
    if 500 ≤ now_ms - t0 ∧ 2 ≤ rc.samples.length then
      some ((((rc.samples.map Prod.fst).sum * 8 * 1000 : Int) / kBitrateWindowMs).toNat)
    else none

/-- Modelled from the spec: `overuse_estimator.cc` is not under src/.  Fields
per section 4.B.  The floating-point Kalman recursion is required by no claim
and is abstracted: `update` performs only the `num_of_deltas += 1` bookkeeping
that section 4.B step 5 prescribes; `offset`/`var_noise` keep their values
(no claim inspects them). -/
structure OveruseEstimator where
  offset : ℚ
  var_noise : ℚ
  num_of_deltas : Nat
deriving DecidableEq

def initOveruseEstimator : OveruseEstimator :=
  { offset := 0, var_noise := 50, num_of_deltas := 0 }

def overuseEstimatorUpdate (e : OveruseEstimator) (_t_delta : Int)
    (_ts_delta_ms : ℚ) (_size_delta : Int) (_state : BandwidthUsage) :
    OveruseEstimator :=
  { e with num_of_deltas := e.num_of_deltas + 1 }

/-- Modelled from the spec, section 4.C: hysteretic three-state detector over
the modified offset `T = min(num_of_deltas, 60) * offset` with adaptive
threshold. -/
structure OveruseDetector where
  state : BandwidthUsage
  threshold : ℚ
  time_over_using : ℚ
  overuse_counter : Nat
  prev_offset : ℚ
  last_update_ms : Int
deriving DecidableEq

def initOveruseDetector : OveruseDetector :=
  { state := .kBwNormal, threshold := 25 / 2, time_over_using := -1,
    overuse_counter := 0, prev_offset := 0, last_update_ms := -1 }

def kOverUsingTimeThreshold : ℚ := 10
def kMaxAdaptOffsetMs : ℚ := 15
def kThresholdGainUp : ℚ := 87 / 10000
def kThresholdGainDown : ℚ := 39 / 1000

/-- Threshold adaptation of spec section 4.C. -/
def detectorUpdateThreshold (d : OveruseDetector) (modified_offset : ℚ)
    (ts_delta_ms : ℚ) (now_ms : Int) : OveruseDetector :=
  if d.last_update_ms = -1 ∨ 100 < now_ms - d.last_update_ms then
    { d with last_update_ms := now_ms }
  else if kMaxAdaptOffsetMs ≤ |modified_offset| - d.threshold then
    { d with last_update_ms := now_ms }
  else
    let k := if d.threshold < |modified_offset| then kThresholdGainUp
             else kThresholdGainDown
    let t := d.threshold + k * (|modified_offset| - d.threshold) * ts_delta_ms
    { d with threshold := max 6 (min 600 t), last_update_ms := now_ms }

/-- Modelled from the spec, section 4.C: `OveruseDetector::Detect`. -/
def overuseDetectorDetect (d : OveruseDetector) (offset : ℚ) (ts_delta_ms : ℚ)
    (num_of_deltas : Nat) (now_ms : Int) : OveruseDetector :=
  if num_of_deltas < 2 then d
  else
    let T : ℚ := (min num_of_deltas 60 : Nat) * offset
    let d1 :=
      if d.threshold < T then
        let tou := if d.time_over_using = -1 then ts_delta_ms / 2
                   else d.time_over_using + ts_delta_ms
        let cnt := d.overuse_counter + 1
        if kOverUsingTimeThreshold < tou ∧ 1 < cnt ∧ d.prev_offset ≤ offset then
          { d with state := .kBwOverusing, time_over_using := 0, overuse_counter := 0 }
        else
          { d with time_over_using := tou, overuse_counter := cnt }
      else if T < -d.threshold then
        { d with state := .kBwUnderusing, time_over_using := -1, overuse_counter := 0 }
      else
        { d with state := .kBwNormal, time_over_using := -1, overuse_counter := 0 }
    let d2 := { d1 with prev_offset := offset }
    detectorUpdateThreshold d2 T ts_delta_ms now_ms

/-- Modelled from the spec, section 3: a timestamp group of `InterArrival`. -/
structure TimestampGroup where
  first_timestamp : Nat
  timestamp : Nat
  first_arrival_ms : Int
  complete_time_ms : Int
  size : Nat
deriving DecidableEq

/-- Modelled from the spec: `inter_arrival.cc` is not under src/.  State per
section 4.A: the current and previous timestamp groups, plus the group length
in internal ticks (constructor argument
`(kTimestampGroupLengthMs << kInterArrivalShift) / 1000` from
`DelayBasedBwe::TimeoutStreams`). -/
structure InterArrival where
  timestamp_group_length_ticks : Nat
  current_group : Option TimestampGroup
  prev_group : Option TimestampGroup
deriving DecidableEq

def initInterArrival : InterArrival :=
  { timestamp_group_length_ticks := (kTimestampGroupLengthMs <<< kInterArrivalShift) / 1000,
    current_group := none, prev_group := none }

/-- Wrap-aware unsigned-32 subtraction `a - b` (mod `2^32`). -/
def wrapSub32 (a b : Nat) : Nat := (a + 2 ^ 32 - b % 2 ^ 32) % 2 ^ 32

/-- Modelled from the spec, section 4.A: does a send timestamp start a new
group (at least `group_length_ticks` beyond the current group's first
timestamp, wrap-aware)? -/
def iaNewTimestampGroup (ia : InterArrival) (g : TimestampGroup) (ts : Nat) : Bool :=
  decide (ia.timestamp_group_length_ticks ≤ wrapSub32 ts g.first_timestamp) &&
  decide (wrapSub32 ts g.first_timestamp < 2 ^ 31)

/-- Modelled from the spec, section 4.A burst detection. -/
def iaBelongsToBurst (g : TimestampGroup) (arrival_ms : Int) : Bool :=
  decide (arrival_ms - g.complete_time_ms < 5) &&
  decide (arrival_ms - g.first_arrival_ms < 100)

/-- Modelled from the spec, section 4.A: `InterArrival::ComputeDeltas`.
Returns the updated state and, when a group has just completed with a prior
completed group present, the `(ts_delta, arrival_delta_ms, size_delta)`
triple. -/
def interArrivalComputeDeltas (ia : InterArrival) (timestamp : Nat)
    (arrival_ms : Int) (size : Nat) : InterArrival × Option (Nat × Int × Int) :=
  let fresh : TimestampGroup :=
    { first_timestamp := timestamp, timestamp := timestamp,
      first_arrival_ms := arrival_ms, complete_time_ms := arrival_ms,
      size := size }
  match ia.current_group with
  | none =>
    ({ ia with current_group := some fresh }, none)
  | some g =>
    if 3000 < arrival_ms - g.complete_time_ms then
      ({ ia with current_group := some fresh, prev_group := none }, none)
    else if arrival_ms + 5 < g.complete_time_ms then
      if iaNewTimestampGroup ia g timestamp then (ia, none)
      else
        let absorbed : TimestampGroup := { g with size := g.size + size }
        ({ ia with current_group := some absorbed }, none)
    else if iaBelongsToBurst g arrival_ms ∨ ¬ iaNewTimestampGroup ia g timestamp then
      let extended : TimestampGroup :=
        { g with timestamp := timestamp, size := g.size + size,
                 complete_time_ms := max g.complete_time_ms arrival_ms }
      ({ ia with current_group := some extended }, none)
    else
      let deltas :=
        match ia.prev_group with
        | none => none
        | some pg =>
          some (wrapSub32 g.timestamp pg.timestamp,
                g.complete_time_ms - pg.complete_time_ms,
                (g.size : Int) - (pg.size : Int))
      ({ ia with current_group := some fresh, prev_group := some g }, deltas)

/-! ### The coordinator (DelayBasedBwe) -/

/-- The coordinator state: the member variables of `DelayBasedBwe` that the
per-packet pipeline reads and writes.  `ssrcs` models the ordered
`std::map<uint32_t, int64_t> ssrcs_` as a key-sorted association list. -/
structure BweState where
  ssrcs : List (Nat × Int)
  inter_arrival : InterArrival
  estimator : OveruseEstimator
  detector : OveruseDetector
  incoming_bitrate : RateCounter
  probes : List Probe
  total_probes_received : Nat
  first_packet_time_ms : Int
  last_update_ms : Int
  remote_rate : AimdRateControl
deriving DecidableEq

def initBweState : BweState :=
  { ssrcs := [], inter_arrival := initInterArrival,
    estimator := initOveruseEstimator, detector := initOveruseDetector,
    incoming_bitrate := initRateCounter, probes := [],
    total_probes_received := 0, first_packet_time_ms := -1,
    last_update_ms := -1, remote_rate := initAimdRateControl }

/-- Insertion into the ordered `std::map`: update in place or insert sorted. -/
def ssrcsInsert : List (Nat × Int) → Nat → Int → List (Nat × Int)
  | [], k, v => [(k, v)]
  | (k0, v0) :: rest, k, v =>
    if k < k0 then (k, v) :: (k0, v0) :: rest
    else if k = k0 then (k, v) :: rest
    else (k0, v0) :: ssrcsInsert rest k v

/-- `Keys(ssrcs_)`. -/
def ssrcsKeys (m : List (Nat × Int)) : List Nat := m.map Prod.fst

/-- `DelayBasedBwe::TimeoutStreams`: erase every SSRC whose last-seen time is
more than `kStreamTimeOutMs` before `now_ms`; if the map is empty afterwards,
reconstruct the `InterArrival` and `OveruseEstimator` sub-components.
`first_packet_time_ms_` is deliberately not reset (source comment). -/
def timeoutStreams (st : BweState) (now_ms : Int) : BweState :=
  let kept := st.ssrcs.filter fun e => decide (now_ms - e.2 ≤ kStreamTimeOutMs)
  if kept.isEmpty then
    { st with ssrcs := kept, inter_arrival := initInterArrival,
              estimator := initOveruseEstimator }
  else
    { st with ssrcs := kept }

/-- `DelayBasedBwe::ProbeResult`. -/
inductive ProbeResult
  | kBitrateUpdated
  | kNoUpdate
deriving DecidableEq

/-- `DelayBasedBwe::IsBitrateImproving`. -/
def isBitrateImproving (rr : AimdRateControl) (new_bitrate_bps : Int) : Bool :=
  (!(aimdValidEstimate rr) && decide (0 < new_bitrate_bps)) ||
  (aimdValidEstimate rr && decide ((aimdLatestEstimate rr : Int) < new_bitrate_bps))

/-- `DelayBasedBwe::ProcessClusters`. -/
def processClusters (st : BweState) (now_ms : Int) : BweState × ProbeResult :=
  let clusters := computeClusters st.probes
  if clusters.isEmpty then
    -- if we reach the max number of probe packets and still have no
    -- clusters, remove the oldest one
    if kMaxProbePackets ≤ st.probes.length then
      ({ st with probes := st.probes.tail }, .kNoUpdate)
    else (st, .kNoUpdate)
  else
    let finish : BweState × ProbeResult :=
      if kExpectedNumberOfProbes ≤ clusters.length then
        ({ st with probes := [] }, .kNoUpdate)
      else (st, .kNoUpdate)
    match findBestProbe clusters with
    | some best =>
      let probe_bitrate_bps := minBitrateBps best
      if isBitrateImproving st.remote_rate probe_bitrate_bps then
        ({ st with remote_rate := aimdSetEstimate st.remote_rate probe_bitrate_bps now_ms },
         .kBitrateUpdated)
      else finish
    | none => finish

/-- Observer callback record: the arguments of
`RemoteBitrateObserver::OnReceiveBitrateChanged`. -/
structure ObserverEvent where
  ssrcs : List Nat
  bitrate_bps : Nat
deriving DecidableEq

/-- The probe branch of `IncomingPacketInfo` (the block guarded by
`probe_cluster_id != kNotAProbe && payload_size > kMinProbePacketSize && ...`).
Returns the updated state and whether `ProcessClusters` reported
`kBitrateUpdated`. -/
def probePhase (st : BweState) (arrival_time_ms send_time_ms : Int)
    (payload_size : Nat) (probe_cluster_id : Int) (now_ms : Int) :
    BweState × Bool :=
  if probe_cluster_id ≠ kNotAProbe ∧ kMinProbePacketSize < payload_size ∧
     (¬ aimdValidEstimate st.remote_rate = true ∨
      now_ms - st.first_packet_time_ms < kInitialProbingIntervalMs) then
    let st := { st with
      probes := st.probes ++ [{ send_time_ms := send_time_ms,
                                recv_time_ms := arrival_time_ms,
                                payload_size := payload_size,
                                cluster_id := probe_cluster_id }],
      total_probes_received := st.total_probes_received + 1 }
    let r := processClusters st now_ms
    (r.1, decide (r.2 = .kBitrateUpdated))
  else (st, false)

/-- The inter-arrival / estimator / detector step of `IncomingPacketInfo`. -/
def deltaPhase (st : BweState) (timestamp : Nat) (arrival_time_ms : Int)
    (payload_size : Nat) : BweState :=
  let r :=
    interArrivalComputeDeltas st.inter_arrival timestamp arrival_time_ms payload_size
  let st := { st with inter_arrival := r.1 }
  match r.2 with
  | some (ts_delta, t_delta, size_delta) =>
    let ts_delta_ms : ℚ := (1000 * ts_delta : ℚ) / 2 ^ kInterArrivalShift
    let e := overuseEstimatorUpdate st.estimator t_delta ts_delta_ms size_delta
               st.detector.state
    let d := overuseDetectorDetect st.detector e.offset ts_delta_ms
               e.num_of_deltas arrival_time_ms
    { st with estimator := e, detector := d }
  | none => st

/-- The "decide whether to re-run the rate controller" step and the final
update block of `IncomingPacketInfo`, returning the emitted observer
callbacks. -/
def updatePhase (st : BweState) (now_ms : Int) (probe_updated : Bool) :
    BweState × List ObserverEvent :=
  let update_estimate :=
    if probe_updated then true
    else if st.last_update_ms = -1 ∨
            aimdGetFeedbackInterval st.remote_rate < now_ms - st.last_update_ms then
      true
    else if st.detector.state = .kBwOverusing then
      match rateCounterRate st.incoming_bitrate now_ms with
      | some incoming_rate => aimdTimeToReduceFurther st.remote_rate now_ms incoming_rate
      | none => false
    else false
  if update_estimate then
    let input : RateControlInput :=
      { bw_state := st.detector.state,
        incoming_bitrate := rateCounterRate st.incoming_bitrate now_ms,
        noise_var := st.estimator.var_noise }
    let rr := aimdUpdate st.remote_rate input now_ms
    let target_bitrate_bps := aimdUpdateBandwidthEstimate rr now_ms
    let st := { st with remote_rate := rr }
    if aimdValidEstimate rr then
      ({ st with last_update_ms := now_ms },
       [{ ssrcs := ssrcsKeys st.ssrcs, bitrate_bps := target_bitrate_bps }])
    else (st, [])
  else (st, [])

/-- The steps of `IncomingPacketInfo` preceding the probe branch: feed the
rate counter, latch `first_packet_time_ms_`, time out inactive SSRCs and
record this packet's SSRC as seen now. -/
def prePhase (st : BweState) (arrival_time_ms : Int) (payload_size : Nat)
    (ssrc : Nat) : BweState :=
  let now_ms := arrival_time_ms
  let st := { st with
    incoming_bitrate := rateCounterUpdate st.incoming_bitrate payload_size now_ms }
  let st :=
    if st.first_packet_time_ms = -1 then
      { st with first_packet_time_ms := arrival_time_ms }
    else st
  let st := timeoutStreams st now_ms
  { st with ssrcs := ssrcsInsert st.ssrcs ssrc now_ms }

/-- `DelayBasedBwe::IncomingPacketInfo`: the full per-packet pipeline.
Returns the new state and the observer callbacks emitted (the source invokes
`OnReceiveBitrateChanged` after releasing the lock). -/
def incomingPacketInfo (st : BweState) (arrival_time_ms : Int)
    (send_time_24bits : Nat) (payload_size : Nat) (ssrc : Nat)
    (probe_cluster_id : Int) : BweState × List ObserverEvent :=
  let timestamp := send_time_24bits <<< kAbsSendTimeInterArrivalUpshift
  let send_time_ms := sendTimeMsOfTimestamp timestamp
  let now_ms := arrival_time_ms
  let st := prePhase st arrival_time_ms payload_size ssrc
  let pr :=
    probePhase st arrival_time_ms send_time_ms payload_size probe_cluster_id now_ms
  let st := deltaPhase pr.1 timestamp arrival_time_ms payload_size
  updatePhase st now_ms pr.2

/-- `PacketInfo` (the feedback-vector element; the fields
`DelayBasedBwe::IncomingPacketFeedbackVector` reads). -/
structure PacketInfo where
  arrival_time_ms : Int
  send_time_ms : Nat
  payload_size : Nat
  probe_cluster_id : Int
deriving DecidableEq

/-- `DelayBasedBwe::IncomingPacketFeedbackVector`: iterate the feedback in
order, converting each send time to 24 bits, with ssrc 0. -/
def incomingPacketFeedbackVector (st : BweState) (v : List PacketInfo) :
    BweState × List ObserverEvent :=
  v.foldl
    (fun acc pi =>
      let r :=
        incomingPacketInfo acc.1 pi.arrival_time_ms
          (convertMsTo24Bits pi.send_time_ms) pi.payload_size 0
          pi.probe_cluster_id
      (r.1, acc.2 ++ r.2))
    (st, [])

/-! ### RTP header and remaining coordinator entry points -/

/-- Frame-marking extension data (`header->extension.frameMarks`). -/
structure FrameMarks where
  startOfFrame : Bool
  endOfFrame : Bool
  independent : Bool
  discardable : Bool
  baseLayerSync : Bool
  temporalLayerId : Nat
  spatialLayerId : Nat
  tl0PicIdx : Nat
deriving DecidableEq

def defaultFrameMarks : FrameMarks :=
  { startOfFrame := false, endOfFrame := false, independent := false,
    discardable := false, baseLayerSync := false, temporalLayerId := 0,
    spatialLayerId := 0, tl0PicIdx := 0 }

/-- `RTPHeaderExtension` (the fields `RtpHeaderParser::Parse` and the
one-byte-extension parser touch).  `videoRotation` stores the raw CVO byte:
`ConvertCVOByteToVideoRotation` lives in rtp_cvo.h, which is not under src/,
and no claim inspects the converted value. -/
structure RTPHeaderExtension where
  hasTransmissionTimeOffset : Bool
  transmissionTimeOffset : Int
  hasAbsoluteSendTime : Bool
  absoluteSendTime : Nat
  hasAudioLevel : Bool
  voiceActivity : Bool
  audioLevel : Nat
  hasVideoRotation : Bool
  videoRotation : Nat
  hasTransportSequenceNumber : Bool
  transportSequenceNumber : Nat
  playout_delay_min_ms : Int
  playout_delay_max_ms : Int
  frameMarks : FrameMarks
deriving DecidableEq

/-- The extension-field initialization performed by `RtpHeaderParser::Parse`
before scanning the extension block. -/
def defaultExtension : RTPHeaderExtension :=
  { hasTransmissionTimeOffset := false, transmissionTimeOffset := 0,
    hasAbsoluteSendTime := false, absoluteSendTime := 0,
    hasAudioLevel := false, voiceActivity := false, audioLevel := 0,
    hasVideoRotation := false, videoRotation := 0,
    hasTransportSequenceNumber := false, transportSequenceNumber := 0,
    playout_delay_min_ms := -1, playout_delay_max_ms := -1,
    frameMarks := defaultFrameMarks }

/-- `RTPHeader` (the fields the estimator and the claims read). -/
structure RTPHeader where
  markerBit : Bool
  payloadType : Nat
  sequenceNumber : Nat
  timestamp : Nat
  ssrc : Nat
  numCSRCs : Nat
  paddingLength : Nat
  headerLength : Nat
  extension : RTPHeaderExtension
deriving DecidableEq

/-- The exact warning string of `DelayBasedBwe::IncomingPacket`. -/
def missingAbsSendTimeWarning : String :=
  "RemoteBitrateEstimatorAbsSendTime: Incoming packet is missing absolute send time extension!"

/-- `DelayBasedBwe::IncomingPacket` (the probe-cluster-id overload; the
three-argument overload forwards with `probe_cluster_id = kNotAProbe`).
Returns the new state, the warnings logged, and the observer callbacks. -/
def incomingPacket (st : BweState) (arrival_time_ms : Int) (payload_size : Nat)
    (header : RTPHeader) (probe_cluster_id : Int) :
    BweState × List String × List ObserverEvent :=
  if ¬ header.extension.hasAbsoluteSendTime = true then
    (st, [missingAbsSendTimeWarning], [])
  else
    let (st, events) :=
      incomingPacketInfo st arrival_time_ms header.extension.absoluteSendTime
        payload_size header.ssrc probe_cluster_id
    (st, [], events)

/-- `DelayBasedBwe::LatestEstimate`: `none` unless the rate controller has a
valid estimate; otherwise the active SSRC list and the bitrate (0 when the
SSRC map is empty).  The source function only reads state (under the lock);
the embedding returns no state accordingly. -/
def latestEstimate (st : BweState) : Option (List Nat × Nat) :=
  if ¬ aimdValidEstimate st.remote_rate = true then none
  else
    some (ssrcsKeys st.ssrcs,
          if st.ssrcs.isEmpty then 0 else aimdLatestEstimate st.remote_rate)

/-- `DelayBasedBwe::OnRttUpdate`. -/
def onRttUpdate (st : BweState) (avg_rtt_ms _max_rtt_ms : Int) : BweState :=
  { st with remote_rate := aimdSetRtt st.remote_rate avg_rtt_ms }

/-- `DelayBasedBwe::RemoveStream`. -/
def removeStream (st : BweState) (ssrc : Nat) : BweState :=
  { st with ssrcs := st.ssrcs.filter fun e => decide (e.1 ≠ ssrc) }

/-- `DelayBasedBwe::SetMinBitrate`. -/
def setMinBitrate (st : BweState) (min_bitrate_bps : Int) : BweState :=
  { st with remote_rate := aimdSetMinBitrate st.remote_rate min_bitrate_bps }

/-! ### One-byte RTP header extension parsing (rtp_utility.cc) -/

/-- `RTPExtensionType` (the values the parser's switch handles). -/
inductive RTPExtensionType
  | kRtpExtensionNone
  | kRtpExtensionTransmissionTimeOffset
  | kRtpExtensionAudioLevel
  | kRtpExtensionAbsoluteSendTime
  | kRtpExtensionVideoRotation
  | kRtpExtensionTransportSequenceNumber
  | kRtpExtensionPlayoutDelay
  | kRtpExtensionFrameMarking
deriving DecidableEq

/-- The extension map (`RtpHeaderExtensionMap::GetType`); `none` plays the
role of `kInvalidType`. -/
def ExtensionIdMap : Type := Nat → Option RTPExtensionType

def kPlayoutDelayGranularityMs : Int := 10

/-- `ByteReader<int32_t, 3>::ReadBigEndian`: big-endian 24-bit with sign
extension. -/
def readBE3Signed (b0 b1 b2 : Nat) : Int :=
  let v := b0 * 65536 + b1 * 256 + b2
  if v < 2 ^ 23 then (v : Int) else (v : Int) - 2 ^ 24

/-- `ByteReader<uint32_t, 3>::ReadBigEndian`. -/
def readBE3 (b0 b1 b2 : Nat) : Nat := b0 * 65536 + b1 * 256 + b2

/-- Process one recognized extension element: the switch of
`ParseOneByteExtensionHeader`.  `data` is the byte list starting right after
the id/len byte (the source's `ptr`).  Returns `none` on a length mismatch
(the source `return`s, aborting the whole loop) and the updated header
otherwise. -/
def applyExtensionElement (t : RTPExtensionType) (len : Nat) (data : List Nat)
    (ext : RTPHeaderExtension) : Option RTPHeaderExtension :=
  let b0 := data.getD 0 0
  let b1 := data.getD 1 0
  let b2 := data.getD 2 0
  match t with
  | .kRtpExtensionTransmissionTimeOffset =>
    if len ≠ 2 then none
    else some { ext with transmissionTimeOffset := readBE3Signed b0 b1 b2,
                         hasTransmissionTimeOffset := true }
  | .kRtpExtensionAudioLevel =>
    if len ≠ 0 then none
    else some { ext with audioLevel := b0 &&& 0x7f,
                         voiceActivity := (b0 &&& 0x80) ≠ 0,
                         hasAudioLevel := true }
  | .kRtpExtensionAbsoluteSendTime =>
    if len ≠ 2 then none
    else some { ext with absoluteSendTime := readBE3 b0 b1 b2,
                         hasAbsoluteSendTime := true }
  | .kRtpExtensionVideoRotation =>
    if len ≠ 0 then none
    else some { ext with hasVideoRotation := true, videoRotation := b0 }
  | .kRtpExtensionTransportSequenceNumber =>
    if len ≠ 1 then none
    else some { ext with transportSequenceNumber := b0 * 256 + b1,
                         hasTransportSequenceNumber := true }
  | .kRtpExtensionPlayoutDelay =>
    if len ≠ 2 then none
    else
      let min_playout_delay := (b0 <<< 4) ||| ((b1 >>> 4) &&& 0xf)
      let max_playout_delay := ((b1 &&& 0xf) <<< 8) ||| b2
      some { ext with
        playout_delay_min_ms := min_playout_delay * kPlayoutDelayGranularityMs,
        playout_delay_max_ms := max_playout_delay * kPlayoutDelayGranularityMs }
  | .kRtpExtensionFrameMarking =>
    -- the source checks `len != 1 && len != 3` (its own wire-format
    -- diagrams say L=0 and L=2)
    if len ≠ 1 ∧ len ≠ 3 then none
    else
      let marks0 : FrameMarks :=
        { defaultFrameMarks with
          startOfFrame := (b0 &&& 0x80) ≠ 0,
          endOfFrame := (b0 &&& 0x40) ≠ 0,
          independent := (b0 &&& 0x20) ≠ 0,
          discardable := (b0 &&& 0x10) ≠ 0 }
      let marks :=
        if len = 3 then
          { marks0 with
            baseLayerSync := (b0 &&& 0x08) ≠ 0,
            temporalLayerId := b0 &&& 0x07,
            spatialLayerId := b1,
            tl0PicIdx := b2 }
        else marks0
      some { ext with frameMarks := marks }
  | .kRtpExtensionNone => none

/-- The loop of `RtpHeaderParser::ParseOneByteExtensionHeader`, with an
explicit fuel equal to the initial byte count (each iteration consumes at
least one byte, so the fuel never runs out before the buffer does). -/
def parseOneByteGo (extmap : ExtensionIdMap) :
    Nat → List Nat → RTPHeaderExtension → RTPHeaderExtension
  | 0, _, ext => ext
  | _ + 1, [], ext => ext
  | fuel + 1, b :: rest, ext =>
    let id := (b &&& 0xf0) >>> 4
    let len := b &&& 0x0f
    if id = 0 then
      -- padding byte, skip ignoring len
      parseOneByteGo extmap fuel rest ext
    else if id = 15 then ext
    else if rest.length < len + 1 then ext
    else
      match extmap id with
      | none =>
        -- unknown extension, skip over it
        parseOneByteGo extmap fuel (rest.drop (len + 1)) ext
      | some t =>
        match applyExtensionElement t len rest ext with
        | none => ext
        | some ext => parseOneByteGo extmap fuel (rest.drop (len + 1)) ext

/-- `RtpHeaderParser::ParseOneByteExtensionHeader` over a byte list. -/
def parseOneByteExtensionHeader (extmap : ExtensionIdMap) (bytes : List Nat)
    (ext : RTPHeaderExtension) : RTPHeaderExtension :=
  parseOneByteGo extmap bytes.length bytes ext

/-! ### Definitions following claim wordings (for refinement comparisons) -/

/-- C3's wording of the best-probe scan: a cluster qualifies iff the three
conditions hold, the first non-qualifying cluster stops the scan, and there
is no separate treatment of zero-mean clusters.  Compare `findBestProbeGo`. -/
def findBestProbeClaimGo : List Cluster → Int → Option Cluster → Option Cluster
  | [], _, best => best
  | c :: rest, highest, best =>
    if probeQualifies c then
      if highest < minBitrateBps c then
        findBestProbeClaimGo rest (minBitrateBps c) (some c)
      else findBestProbeClaimGo rest highest best
    else best

/-- Best-probe selection as claim C3 states it. -/
def findBestProbeClaim (clusters : List Cluster) : Option Cluster :=
  findBestProbeClaimGo clusters 0 none

/-- The prefix of the cluster list that the source's scan actually visits:
it extends while a cluster is either skipped (zero mean) or qualifying. -/
def scannedClusters (clusters : List Cluster) : List Cluster :=
  clusters.takeWhile fun c => clusterHasZeroMean c || probeQualifies c

/-- The qualifying clusters among the scanned prefix. -/
def candidateClusters (clusters : List Cluster) : List Cluster :=
  (scannedClusters clusters).filter fun c => !clusterHasZeroMean c && probeQualifies c

/-- The bitrate a current best candidate represents (0 when none). -/
def bestClusterVal : Option Cluster → Int
  | none => 0
  | some c => minBitrateBps c

/-- Pick the candidate with the strictly highest `min(send_bps, recv_bps)`,
earliest first on ties, requiring a positive bitrate. -/
def pickBestCluster (cands : List Cluster) (best : Option Cluster) : Option Cluster :=
  cands.foldl (fun best c => if bestClusterVal best < minBitrateBps c then some c else best)
    best

/-- Best-probe selection as amended claim C3 states it: scan stops at the
first cluster that is neither skipped (zero mean) nor qualifying; among the
qualifying scanned clusters the one with the highest positive
`min(send_bps, recv_bps)` wins. -/
def findBestProbeAmended (clusters : List Cluster) : Option Cluster :=
  pickBestCluster (candidateClusters clusters) none

/-- C7's wording of the one-byte-extension loop: a length mismatch aborts
parsing of that element only, and the remaining elements are still parsed.
Compare `parseOneByteGo`, which `return`s instead. -/
def parseOneByteGoClaim (extmap : ExtensionIdMap) :
    Nat → List Nat → RTPHeaderExtension → RTPHeaderExtension
  | 0, _, ext => ext
  | _ + 1, [], ext => ext
  | fuel + 1, b :: rest, ext =>
    let id := (b &&& 0xf0) >>> 4
    let len := b &&& 0x0f
    if id = 0 then parseOneByteGoClaim extmap fuel rest ext
    else if id = 15 then ext
    else if rest.length < len + 1 then ext
    else
      match extmap id with
      | none => parseOneByteGoClaim extmap fuel (rest.drop (len + 1)) ext
      | some t =>
        match applyExtensionElement t len rest ext with
        | none => parseOneByteGoClaim extmap fuel (rest.drop (len + 1)) ext
        | some ext => parseOneByteGoClaim extmap fuel (rest.drop (len + 1)) ext

/-- One-byte-extension parsing as claim C7 states it. -/
def parseOneByteExtensionHeaderClaim (extmap : ExtensionIdMap) (bytes : List Nat)
    (ext : RTPHeaderExtension) : RTPHeaderExtension :=
  parseOneByteGoClaim extmap bytes.length bytes ext

/-! ### Chain-delta bookkeeping (used to state C9) -/

/-- Sum of consecutive send-time deltas along a probe list, starting from a
previous send time. -/
def chainSendSum : Int → List Probe → Int
  | _, [] => 0
  | prev, p :: rest => (p.send_time_ms - prev) + chainSendSum p.send_time_ms rest

/-- Sum of consecutive recv-time deltas along a probe list. -/
def chainRecvSum : Int → List Probe → Int
  | _, [] => 0
  | prev, p :: rest => (p.recv_time_ms - prev) + chainRecvSum p.recv_time_ms rest

/-- Total payload of a probe list. -/
def payloadSum (l : List Probe) : Nat := (l.map Probe.payload_size).sum

/-- Number of consecutive deltas with send delta at least 1 and recv delta at
least 1 along a probe list. -/
def chainAboveCount : Int → Int → List Probe → Nat
  | _, _, [] => 0
  | ps, pr, p :: rest =>
    (if 1 ≤ p.send_time_ms - ps ∧ 1 ≤ p.recv_time_ms - pr then 1 else 0) +
      chainAboveCount p.send_time_ms p.recv_time_ms rest

/-- The send time of the last probe of a list (default when empty). -/
def lastSendTime : Int → List Probe → Int
  | d, [] => d
  | _, p :: rest => lastSendTime p.send_time_ms rest

/-- The recv time of the last probe of a list (default when empty). -/
def lastRecvTime : Int → List Probe → Int
  | d, [] => d
  | _, p :: rest => lastRecvTime p.recv_time_ms rest

/-! ### Concrete scenario inputs -/

/-- Packet `i` of spec scenario S3: probe cluster 0, 1200-byte payload, send
times 5 ms apart, arrival times 6 ms apart. -/
def s3Packet (i : Nat) : PacketInfo :=
  { arrival_time_ms := 6 * (i + 1), send_time_ms := 5 * i,
    payload_size := 1200, probe_cluster_id := 0 }

/-- The first `n` packets of scenario S3. -/
def s3FirstPackets (n : Nat) : List PacketInfo := (List.range n).map s3Packet

/-- A cluster with zero mean send delta that fails the qualification test
(`num_above_min_delta = 0`). -/
def cZeroMean : Cluster :=
  { send_mean_ms := 0, recv_mean_ms := 1, mean_size := 100, count := 4,
    num_above_min_delta := 0 }

/-- A qualifying cluster with positive bitrate. -/
def cGoodCluster : Cluster :=
  { send_mean_ms := 1, recv_mean_ms := 1, mean_size := 100, count := 4,
    num_above_min_delta := 4 }

/-- Five probes with zero payload: they form a cluster whose derived bitrate
is zero. -/
def zeroSizeProbes : List Probe :=
  (List.range 5).map fun i =>
    { send_time_ms := 5 * i, recv_time_ms := 6 * i, payload_size := 0,
      cluster_id := 0 }

/-- A coordinator state holding the zero-payload probes. -/
def stZeroProbes : BweState := { initBweState with probes := zeroSizeProbes }

/-- A state with one stale SSRC (last seen at 0) and one live SSRC. -/
def stTwoSsrcs : BweState :=
  { initBweState with ssrcs := [(1, 0), (2, 2500)],
                      estimator := { initOveruseEstimator with num_of_deltas := 7 } }

/-- A state whose only SSRC is stale at time 2500. -/
def stStaleSsrc : BweState :=
  { initBweState with ssrcs := [(1, 0)],
                      estimator := { initOveruseEstimator with num_of_deltas := 7 },
                      first_packet_time_ms := 3 }

/-- Extension map for the C7 scenario: id 1 is transmission-time-offset,
id 2 is audio-level. -/
def exMapC7 : ExtensionIdMap := fun id =>
  if id = 1 then some .kRtpExtensionTransmissionTimeOffset
  else if id = 2 then some .kRtpExtensionAudioLevel
  else none

/-- C7 scenario bytes: a transmission-time-offset element with the wrong
length (L=3), followed by a well-formed audio-level element. -/
def exBytesC7 : List Nat := [0x13, 0, 0, 0, 0, 0x20, 0x55]

/-- Extension map for the C8 scenario: id 3 is frame-marking. -/
def exMapC8 : ExtensionIdMap := fun id =>
  if id = 3 then some .kRtpExtensionFrameMarking else none

/-- A header with the absolute-send-time extension absent. -/
def headerNoAbsSendTime : RTPHeader :=
  { markerBit := false, payloadType := 96, sequenceNumber := 10,
    timestamp := 1000, ssrc := 7, numCSRCs := 0, paddingLength := 0,
    headerLength := 12, extension := defaultExtension }

/-- A state with one active SSRC and a valid rate-controller estimate. -/
def stValidEstimate : BweState :=
  { initBweState with ssrcs := [(4, 100)],
                      remote_rate := { initAimdRateControl with
                                       valid := true, latest_bps := 123456 } }

/-- The `current` cluster after the `num_above_min_delta` bump of a
`ComputeClusters` iteration (the increment happens before the boundary test,
so a cross-boundary delta's bump lands in the outgoing cluster). -/
def ccBump (s : ClusterAccState) (p : Probe) : Cluster :=
  if 1 ≤ p.send_time_ms - s.prev_send_time ∧ 1 ≤ p.recv_time_ms - s.prev_recv_time then
    { s.current with num_above_min_delta := s.current.num_above_min_delta + 1 }
  else s.current

/-- The `ComputeClusters` loop state after a probe list made of one cluster
group followed by a second one. -/
def ccBoundaryState (l0 : List Probe) (pa pb : Probe) (l2 : List Probe) :
    ClusterAccState :=
  ((l0 ++ [pa]) ++ pb :: l2).foldl computeClustersStep ccInit

/-! ## Theorems -/

attribute [local semireducible] Rat.add Rat.sub Rat.mul Rat.inv

set_option maxRecDepth 40000

/-- C4: a packet whose RTP header lacks the absolute-send-time extension is
dropped: the state is returned unchanged, the observer is not invoked, and
the warning with exactly this text is emitted. -/
theorem incomingPacket_missing_abs_send_time (st : BweState)
    (arrival_time_ms : Int) (payload_size : Nat) (header : RTPHeader)
    (probe_cluster_id : Int)
    (h : header.extension.hasAbsoluteSendTime = false) :
    incomingPacket st arrival_time_ms payload_size header probe_cluster_id =
      (st,
       ["RemoteBitrateEstimatorAbsSendTime: Incoming packet is missing absolute send time extension!"],
       []) := by
  unfold incomingPacket
  rw [h]
  simp [missingAbsSendTimeWarning]

/-- Witness for C4 at a concrete header without the extension. -/
theorem incomingPacket_missing_abs_send_time_witness :
    incomingPacket initBweState 10 1200 headerNoAbsSendTime 0 =
      (initBweState,
       ["RemoteBitrateEstimatorAbsSendTime: Incoming packet is missing absolute send time extension!"],
       []) :=
  incomingPacket_missing_abs_send_time initBweState 10 1200 headerNoAbsSendTime 0
    (by decide)

/-- C6: the latest-estimate query returns nothing exactly when the rate
controller has no valid estimate; with a valid estimate it returns the active
SSRC list and a bitrate that is zero iff the SSRC set is empty.  (The
embedding is a pure function of the state, matching the read-only source.)
The positivity of a valid estimate comes from the spec-modelled rate
controller, whose source is not under src/. -/
theorem latestEstimate_spec (st : BweState)
    (hpos : aimdValidEstimate st.remote_rate = true →
      0 < aimdLatestEstimate st.remote_rate) :
    (latestEstimate st = none ↔ aimdValidEstimate st.remote_rate = false) ∧
    ∀ ssrcs bitrate_bps, latestEstimate st = some (ssrcs, bitrate_bps) →
      ssrcs = ssrcsKeys st.ssrcs ∧ (bitrate_bps = 0 ↔ st.ssrcs = []) := by
  unfold latestEstimate
  cases hv : aimdValidEstimate st.remote_rate with
  | false => simp
  | true =>
    have hlat := hpos hv
    cases hs : st.ssrcs with
    | nil => simp [hs]
    | cons e rest => simp [hs]; omega

/-- Witness for C6 at a concrete state with a valid estimate. -/
theorem latestEstimate_spec_witness :
    latestEstimate stValidEstimate = some ([4], 123456) ∧
    (123456 = 0 ↔ stValidEstimate.ssrcs = []) := by
  have h := latestEstimate_spec stValidEstimate (by decide)
  exact ⟨by decide, (h.2 [4] 123456 (by decide)).2⟩

/-- C8: evaluation of the one-byte-extension parser on frame-marking
elements.  The code accepts exactly wire length fields L=1 and L=3 and
rejects L=0 and L=2, although its own wire-format diagrams (and the
frame-marking draft) prescribe L=0 (non-scalable) and L=2 (scalable): the
claim is right and the length check in the code is a slip. -/
theorem frameMarking_length_behavior :
    parseOneByteExtensionHeader exMapC8 [0x30, 0xC0] defaultExtension =
      defaultExtension ∧
    parseOneByteExtensionHeader exMapC8 [0x32, 0xC0, 0, 0] defaultExtension =
      defaultExtension ∧
    (parseOneByteExtensionHeader exMapC8 [0x31, 0xC0, 0x00]
        defaultExtension).frameMarks.startOfFrame = true ∧
    (parseOneByteExtensionHeader exMapC8 [0x33, 0xC0, 0, 0, 0]
        defaultExtension).frameMarks.startOfFrame = true := by
  decide

/-- C3 counterexample: `cZeroMean` is non-qualifying under the claim's iff,
so the claim's scan stops there and returns nothing, while the source skips
it (zero mean send delta) and returns the later qualifying cluster. -/
theorem findBestProbe_claim_counterexample :
    probeQualifies cZeroMean = false ∧
    findBestProbeClaim [cZeroMean, cGoodCluster] = none ∧
    findBestProbe [cZeroMean, cGoodCluster] = some cGoodCluster := by
  decide

theorem findBestProbeGo_eq_pickBest (l : List Cluster) :
    ∀ best : Option Cluster,
      findBestProbeGo l (bestClusterVal best) best =
        pickBestCluster (candidateClusters l) best := by
  induction l with
  | nil =>
    intro best
    simp [findBestProbeGo, pickBestCluster, candidateClusters, scannedClusters]
  | cons c rest ih =>
    intro best
    by_cases hz : clusterHasZeroMean c = true
    · have hcand : candidateClusters (c :: rest) = candidateClusters rest := by
        simp [candidateClusters, scannedClusters, List.takeWhile, hz, List.filter]
      rw [hcand, ← ih best]
      simp [findBestProbeGo, hz]
    · by_cases hq : probeQualifies c = true
      · have hcand : candidateClusters (c :: rest) = c :: candidateClusters rest := by
          simp [candidateClusters, scannedClusters, List.takeWhile, hz, hq, List.filter]
        rw [hcand]
        have hpick : pickBestCluster (c :: candidateClusters rest) best =
            pickBestCluster (candidateClusters rest)
              (if bestClusterVal best < minBitrateBps c then some c else best) := by
          simp [pickBestCluster]
        by_cases hlt : bestClusterVal best < minBitrateBps c
        · have hgo : findBestProbeGo (c :: rest) (bestClusterVal best) best =
              findBestProbeGo rest (minBitrateBps c) (some c) := by
            simp only [findBestProbeGo]
            rw [if_neg hz, if_pos hq, if_pos hlt]
          have ih2 := ih (some c)
          rw [show bestClusterVal (some c) = minBitrateBps c from rfl] at ih2
          rw [hgo, ih2, hpick, if_pos hlt]
        · have hgo : findBestProbeGo (c :: rest) (bestClusterVal best) best =
              findBestProbeGo rest (bestClusterVal best) best := by
            simp only [findBestProbeGo]
            rw [if_neg hz, if_pos hq, if_neg hlt]
          rw [hgo, ih best, hpick, if_neg hlt]
      · have hcand : candidateClusters (c :: rest) = [] := by
          simp [candidateClusters, scannedClusters, List.takeWhile, hz, hq]
        rw [hcand]
        simp [findBestProbeGo, hz, hq, pickBestCluster]

/-- C3 amended: best-cluster selection scans in order; a cluster with zero
mean send or recv delta is skipped without qualifying or stopping the scan;
the scan stops at the first cluster that is neither skipped nor qualifying;
among the qualifying clusters scanned, the one with the highest positive
`min(send_bps, recv_bps)` (earliest on ties) is returned. -/
theorem findBestProbe_eq_amended (clusters : List Cluster) :
    findBestProbe clusters = findBestProbeAmended clusters := by
  have h := findBestProbeGo_eq_pickBest clusters none
  simpa [findBestProbe, findBestProbeAmended, bestClusterVal] using h

theorem findBestProbeGo_some_mem :
    ∀ (l : List Cluster) (highest : Int) (best : Option Cluster) (c : Cluster),
      findBestProbeGo l highest best = some c →
      best = some c ∨ (c ∈ l ∧ highest < minBitrateBps c) := by
  intro l
  induction l with
  | nil => intro highest best c h; exact Or.inl h
  | cons d rest ih =>
    intro highest best c h
    by_cases hz : clusterHasZeroMean d = true
    · rw [show findBestProbeGo (d :: rest) highest best =
          findBestProbeGo rest highest best by
            simp only [findBestProbeGo]; rw [if_pos hz]] at h
      rcases ih highest best c h with h1 | h2
      · exact Or.inl h1
      · exact Or.inr ⟨List.mem_cons_of_mem d h2.1, h2.2⟩
    · by_cases hq : probeQualifies d = true
      · by_cases hlt : highest < minBitrateBps d
        · rw [show findBestProbeGo (d :: rest) highest best =
              findBestProbeGo rest (minBitrateBps d) (some d) by
                simp only [findBestProbeGo]; rw [if_neg hz, if_pos hq, if_pos hlt]] at h
          rcases ih (minBitrateBps d) (some d) c h with h1 | h2
          · have : d = c := by injection h1
            exact Or.inr ⟨this ▸ List.mem_cons_self d rest, this ▸ hlt⟩
          · exact Or.inr ⟨List.mem_cons_of_mem d h2.1, lt_trans hlt h2.2⟩
        · rw [show findBestProbeGo (d :: rest) highest best =
              findBestProbeGo rest highest best by
                simp only [findBestProbeGo]; rw [if_neg hz, if_pos hq, if_neg hlt]] at h
          rcases ih highest best c h with h1 | h2
          · exact Or.inl h1
          · exact Or.inr ⟨List.mem_cons_of_mem d h2.1, h2.2⟩
      · rw [show findBestProbeGo (d :: rest) highest best = best by
            simp only [findBestProbeGo]; rw [if_neg hz, if_neg hq]] at h
        exact Or.inl h

theorem findBestProbe_some_pos (l : List Cluster) (c : Cluster)
    (h : findBestProbe l = some c) : c ∈ l ∧ 0 < minBitrateBps c := by
  rcases findBestProbeGo_some_mem l 0 none c h with h1 | h2
  · exact absurd h1 (by simp)
  · exact h2

/-- C10: the bitrate-improving test holds exactly when the new bitrate is
strictly positive with no valid estimate, or strictly above the latest
estimate with one; a non-positive bitrate never improves; consequently a
probe list whose clusters all have zero (or non-positive) derived bitrate
never seeds the estimate: `ProcessClusters` returns `kNoUpdate` and leaves
the rate controller untouched. -/
theorem zeroBitrate_cluster_never_seeds :
    (∀ (rr : AimdRateControl) (b : Int),
       isBitrateImproving rr b = true ↔
         ((aimdValidEstimate rr = false ∧ 0 < b) ∨
          (aimdValidEstimate rr = true ∧ (aimdLatestEstimate rr : Int) < b))) ∧
    (∀ (rr : AimdRateControl) (b : Int), b ≤ 0 → isBitrateImproving rr b = false) ∧
    ∀ (st : BweState) (now_ms : Int),
      (∀ c ∈ computeClusters st.probes, minBitrateBps c ≤ 0) →
      (processClusters st now_ms).2 = ProbeResult.kNoUpdate ∧
      (processClusters st now_ms).1.remote_rate = st.remote_rate := by
  refine ⟨?_, ?_, ?_⟩
  · intro rr b
    cases hv : rr.valid <;>
      simp [isBitrateImproving, aimdValidEstimate, aimdLatestEstimate, hv]
  · intro rr b hb
    cases hv : rr.valid <;>
      simp only [isBitrateImproving, aimdValidEstimate, aimdLatestEstimate, hv] <;>
      simp <;> omega
  · intro st now_ms hall
    unfold processClusters
    by_cases he : (computeClusters st.probes).isEmpty = true
    · rw [if_pos he]
      by_cases hm : kMaxProbePackets ≤ st.probes.length
      · rw [if_pos hm]; exact ⟨rfl, rfl⟩
      · rw [if_neg hm]; exact ⟨rfl, rfl⟩
    · rw [if_neg he]
      cases hb : findBestProbe (computeClusters st.probes) with
      | none =>
        simp only
        by_cases hn : kExpectedNumberOfProbes ≤ (computeClusters st.probes).length
        · rw [if_pos hn]; exact ⟨rfl, rfl⟩
        · rw [if_neg hn]; exact ⟨rfl, rfl⟩
      | some c =>
        have hpos := findBestProbe_some_pos _ c hb
        have := hall c hpos.1
        omega

/-- Witness for C10: a state whose probes form a single zero-payload cluster
(derived bitrate zero); processing the clusters yields no update. -/
theorem zeroBitrate_cluster_never_seeds_witness :
    (processClusters stZeroProbes 100).2 = ProbeResult.kNoUpdate := by
  have h := zeroBitrate_cluster_never_seeds
  exact (h.2.2 stZeroProbes 100 (by decide)).1

/-- C7 counterexample: a transmission-time-offset element with a wrong
length followed by a well-formed audio-level element.  Under the claim the
audio-level element is still parsed; the source `return`s at the mismatch and
never reaches it. -/
theorem parse_mismatch_counterexample :
    (parseOneByteExtensionHeader exMapC7 exBytesC7 defaultExtension).hasAudioLevel
      = false ∧
    (parseOneByteExtensionHeaderClaim exMapC7 exBytesC7 defaultExtension).hasAudioLevel
      = true ∧
    parseOneByteExtensionHeader exMapC7 exBytesC7 defaultExtension ≠
      parseOneByteExtensionHeaderClaim exMapC7 exBytesC7 defaultExtension := by
  decide

/-- C7 amended: when an element's id maps to a recognized type and its length
field fails that type's check (`applyExtensionElement` rejects it), the
parser aborts the entire remaining extension block: the result is the header
accumulated so far and no later element is parsed. -/
theorem parse_mismatch_aborts_block (extmap : ExtensionIdMap) (fuel b : Nat)
    (rest : List Nat) (ext : RTPHeaderExtension) (t : RTPExtensionType)
    (hid0 : (b &&& 0xf0) >>> 4 ≠ 0) (hid15 : (b &&& 0xf0) >>> 4 ≠ 15)
    (hlen : ¬ rest.length < (b &&& 0x0f) + 1)
    (hmap : extmap ((b &&& 0xf0) >>> 4) = some t)
    (hmis : applyExtensionElement t (b &&& 0x0f) rest ext = none) :
    parseOneByteGo extmap (fuel + 1) (b :: rest) ext = ext := by
  simp only [parseOneByteGo]
  rw [if_neg hid0, if_neg hid15, if_neg hlen]
  simp only [hmap, hmis]

/-- Witness for C7's amended theorem at the concrete mismatch input. -/
theorem parse_mismatch_aborts_block_witness :
    parseOneByteGo exMapC7 7 (0x13 :: [0, 0, 0, 0, 0x20, 0x55]) defaultExtension =
      defaultExtension :=
  parse_mismatch_aborts_block exMapC7 6 0x13 [0, 0, 0, 0, 0x20, 0x55]
    defaultExtension .kRtpExtensionTransmissionTimeOffset
    (by decide) (by decide) (by decide) (by decide) (by decide)

theorem timeoutStreams_probes (st : BweState) (now_ms : Int) :
    (timeoutStreams st now_ms).probes = st.probes := by
  simp only [timeoutStreams]; split <;> rfl

theorem processClusters_frame (st : BweState) (now_ms : Int) :
    (processClusters st now_ms).1.ssrcs = st.ssrcs ∧
    (processClusters st now_ms).1.inter_arrival = st.inter_arrival ∧
    (processClusters st now_ms).1.estimator = st.estimator ∧
    (processClusters st now_ms).1.detector = st.detector ∧
    (processClusters st now_ms).1.incoming_bitrate = st.incoming_bitrate ∧
    (processClusters st now_ms).1.total_probes_received = st.total_probes_received ∧
    (processClusters st now_ms).1.first_packet_time_ms = st.first_packet_time_ms ∧
    (processClusters st now_ms).1.last_update_ms = st.last_update_ms := by
  simp only [processClusters]
  repeat' split
  all_goals exact ⟨rfl, rfl, rfl, rfl, rfl, rfl, rfl, rfl⟩

theorem probePhase_frame (st : BweState) (arrival_time_ms send_time_ms : Int)
    (payload_size : Nat) (probe_cluster_id now_ms : Int) :
    ((probePhase st arrival_time_ms send_time_ms payload_size probe_cluster_id
        now_ms).1.ssrcs = st.ssrcs ∧
     (probePhase st arrival_time_ms send_time_ms payload_size probe_cluster_id
        now_ms).1.inter_arrival = st.inter_arrival ∧
     (probePhase st arrival_time_ms send_time_ms payload_size probe_cluster_id
        now_ms).1.estimator = st.estimator ∧
     (probePhase st arrival_time_ms send_time_ms payload_size probe_cluster_id
        now_ms).1.detector = st.detector ∧
     (probePhase st arrival_time_ms send_time_ms payload_size probe_cluster_id
        now_ms).1.incoming_bitrate = st.incoming_bitrate ∧
     (probePhase st arrival_time_ms send_time_ms payload_size probe_cluster_id
        now_ms).1.first_packet_time_ms = st.first_packet_time_ms ∧
     (probePhase st arrival_time_ms send_time_ms payload_size probe_cluster_id
        now_ms).1.last_update_ms = st.last_update_ms) := by
  simp only [probePhase]
  split
  · exact ⟨(processClusters_frame _ _).1, (processClusters_frame _ _).2.1,
           (processClusters_frame _ _).2.2.1, (processClusters_frame _ _).2.2.2.1,
           (processClusters_frame _ _).2.2.2.2.1,
           (processClusters_frame _ _).2.2.2.2.2.2.1,
           (processClusters_frame _ _).2.2.2.2.2.2.2⟩
  · exact ⟨rfl, rfl, rfl, rfl, rfl, rfl, rfl⟩

theorem deltaPhase_frame (st : BweState) (timestamp : Nat)
    (arrival_time_ms : Int) (payload_size : Nat) :
    (deltaPhase st timestamp arrival_time_ms payload_size).ssrcs = st.ssrcs ∧
    (deltaPhase st timestamp arrival_time_ms payload_size).probes = st.probes ∧
    (deltaPhase st timestamp arrival_time_ms payload_size).remote_rate
      = st.remote_rate ∧
    (deltaPhase st timestamp arrival_time_ms payload_size).incoming_bitrate
      = st.incoming_bitrate ∧
    (deltaPhase st timestamp arrival_time_ms payload_size).total_probes_received
      = st.total_probes_received ∧
    (deltaPhase st timestamp arrival_time_ms payload_size).first_packet_time_ms
      = st.first_packet_time_ms ∧
    (deltaPhase st timestamp arrival_time_ms payload_size).last_update_ms
      = st.last_update_ms := by
  simp only [deltaPhase]
  repeat' split
  all_goals exact ⟨rfl, rfl, rfl, rfl, rfl, rfl, rfl⟩

theorem updatePhase_frame (st : BweState) (now_ms : Int) (probe_updated : Bool) :
    (updatePhase st now_ms probe_updated).1.ssrcs = st.ssrcs ∧
    (updatePhase st now_ms probe_updated).1.probes = st.probes ∧
    (updatePhase st now_ms probe_updated).1.inter_arrival = st.inter_arrival ∧
    (updatePhase st now_ms probe_updated).1.estimator = st.estimator ∧
    (updatePhase st now_ms probe_updated).1.detector = st.detector ∧
    (updatePhase st now_ms probe_updated).1.incoming_bitrate
      = st.incoming_bitrate ∧
    (updatePhase st now_ms probe_updated).1.total_probes_received
      = st.total_probes_received ∧
    (updatePhase st now_ms probe_updated).1.first_packet_time_ms
      = st.first_packet_time_ms := by
  simp only [updatePhase]
  repeat' split
  all_goals exact ⟨rfl, rfl, rfl, rfl, rfl, rfl, rfl, rfl⟩

theorem prePhase_probes (st : BweState) (arrival_time_ms : Int)
    (payload_size ssrc : Nat) :
    (prePhase st arrival_time_ms payload_size ssrc).probes = st.probes := by
  simp only [prePhase]
  rw [timeoutStreams_probes]
  split <;> rfl

theorem prePhase_ssrcs (st : BweState) (arrival_time_ms : Int)
    (payload_size ssrc : Nat) :
    (prePhase st arrival_time_ms payload_size ssrc).ssrcs =
      ssrcsInsert
        ((timeoutStreams
            (if st.first_packet_time_ms = -1 then
              { st with
                incoming_bitrate :=
                  rateCounterUpdate st.incoming_bitrate payload_size arrival_time_ms,
                first_packet_time_ms := arrival_time_ms }
             else
              { st with
                incoming_bitrate :=
                  rateCounterUpdate st.incoming_bitrate payload_size arrival_time_ms })
            arrival_time_ms).ssrcs)
        ssrc arrival_time_ms := by
  simp only [prePhase]

theorem ssrcsInsert_mem (m : List (Nat × Int)) (k : Nat) (v : Int)
    (e : Nat × Int) (h : e ∈ ssrcsInsert m k v) : e = (k, v) ∨ e ∈ m := by
  induction m with
  | nil =>
    simp only [ssrcsInsert, List.mem_singleton] at h
    exact Or.inl h
  | cons e0 rest ih =>
    simp only [ssrcsInsert] at h
    split at h
    · rcases List.mem_cons.mp h with h1 | h2
      · exact Or.inl h1
      · exact Or.inr h2
    · split at h
      · rcases List.mem_cons.mp h with h1 | h2
        · exact Or.inl h1
        · exact Or.inr (List.mem_cons_of_mem e0 h2)
      · rcases List.mem_cons.mp h with h1 | h2
        · exact Or.inr (h1 ▸ List.mem_cons_self e0 rest)
        · rcases ih h2 with h3 | h4
          · exact Or.inl h3
          · exact Or.inr (List.mem_cons_of_mem e0 h4)

theorem timeoutStreams_ssrcs (st : BweState) (now_ms : Int) :
    (timeoutStreams st now_ms).ssrcs =
      st.ssrcs.filter fun e => decide (now_ms - e.2 ≤ kStreamTimeOutMs) := by
  simp only [timeoutStreams]
  split <;> rfl

theorem timeoutStreams_ssrcs_fresh (st : BweState) (now_ms : Int)
    (e : Nat × Int) (h : e ∈ (timeoutStreams st now_ms).ssrcs) :
    now_ms - e.2 ≤ kStreamTimeOutMs := by
  rw [timeoutStreams_ssrcs] at h
  exact of_decide_eq_true (List.mem_filter.mp h).2

/-- C5: on each ingress, `TimeoutStreams` removes exactly the SSRCs last seen
more than 2000 ms before the current arrival time; when the map is empty
afterwards, `InterArrival` and `OveruseEstimator` are freshly constructed,
otherwise kept; `first_packet_time_ms` and all other coordinator fields are
untouched by the timeout step; and after a full packet ingress no SSRC entry
is stale. -/
theorem timeoutStreams_spec (st : BweState) (now_ms : Int) :
    (timeoutStreams st now_ms).ssrcs =
      (st.ssrcs.filter fun e => decide (now_ms - e.2 ≤ kStreamTimeOutMs)) ∧
    ((timeoutStreams st now_ms).ssrcs.isEmpty = true →
      (timeoutStreams st now_ms).inter_arrival = initInterArrival ∧
      (timeoutStreams st now_ms).estimator = initOveruseEstimator) ∧
    ((timeoutStreams st now_ms).ssrcs.isEmpty = false →
      (timeoutStreams st now_ms).inter_arrival = st.inter_arrival ∧
      (timeoutStreams st now_ms).estimator = st.estimator) ∧
    (timeoutStreams st now_ms).first_packet_time_ms = st.first_packet_time_ms ∧
    (timeoutStreams st now_ms).probes = st.probes ∧
    (timeoutStreams st now_ms).incoming_bitrate = st.incoming_bitrate ∧
    (timeoutStreams st now_ms).detector = st.detector ∧
    (timeoutStreams st now_ms).remote_rate = st.remote_rate ∧
    (timeoutStreams st now_ms).total_probes_received = st.total_probes_received ∧
    (timeoutStreams st now_ms).last_update_ms = st.last_update_ms ∧
    ∀ (arrival_time_ms : Int) (send_time_24bits payload_size ssrc : Nat)
      (probe_cluster_id : Int) (e : Nat × Int),
      e ∈ ((incomingPacketInfo st arrival_time_ms send_time_24bits payload_size
              ssrc probe_cluster_id).1).ssrcs →
      arrival_time_ms - e.2 ≤ kStreamTimeOutMs := by
  refine ⟨timeoutStreams_ssrcs st now_ms, ?_, ?_, ?_, ?_, ?_, ?_, ?_, ?_, ?_, ?_⟩
  · intro he
    rw [timeoutStreams_ssrcs] at he
    simp only [timeoutStreams]
    rw [if_pos he]
    exact ⟨rfl, rfl⟩
  · intro he
    rw [timeoutStreams_ssrcs] at he
    simp only [timeoutStreams]
    rw [if_neg (by rw [he]; decide)]
    exact ⟨rfl, rfl⟩
  · simp only [timeoutStreams]; split <;> rfl
  · simp only [timeoutStreams]; split <;> rfl
  · simp only [timeoutStreams]; split <;> rfl
  · simp only [timeoutStreams]; split <;> rfl
  · simp only [timeoutStreams]; split <;> rfl
  · simp only [timeoutStreams]; split <;> rfl
  · simp only [timeoutStreams]; split <;> rfl
  · intro arrival t24 size ssrc pid e hmem
    unfold incomingPacketInfo at hmem
    rw [(updatePhase_frame _ _ _).1, (deltaPhase_frame _ _ _ _).1,
        (probePhase_frame _ _ _ _ _ _).1, prePhase_ssrcs] at hmem
    rcases ssrcsInsert_mem _ _ _ _ hmem with h1 | h2
    · rw [h1]; simp [kStreamTimeOutMs]
    · exact timeoutStreams_ssrcs_fresh _ _ _ h2

/-- Witness for C5: a stale SSRC is dropped while a live one is kept (with
the sub-components untouched), and a fully stale map triggers fresh
sub-components without resetting `first_packet_time_ms`. -/
theorem timeoutStreams_spec_witness :
    (timeoutStreams stTwoSsrcs 2500).ssrcs = [(2, 2500)] ∧
    (timeoutStreams stTwoSsrcs 2500).estimator = stTwoSsrcs.estimator ∧
    (timeoutStreams stStaleSsrc 2500).ssrcs = [] ∧
    (timeoutStreams stStaleSsrc 2500).inter_arrival = initInterArrival ∧
    (timeoutStreams stStaleSsrc 2500).estimator = initOveruseEstimator ∧
    (timeoutStreams stStaleSsrc 2500).first_packet_time_ms = 3 := by
  have h1 := timeoutStreams_spec stTwoSsrcs 2500
  have h2 := timeoutStreams_spec stStaleSsrc 2500
  refine ⟨by rw [h1.1]; decide, ((h1.2.2.1) (by decide)).2, by rw [h2.1]; decide,
          ((h2.2.1) (by decide)).1, ((h2.2.1) (by decide)).2, ?_⟩
  rw [h2.2.2.2.1]
  rfl

/-- C2 counterexample: sixteen S3-style probe packets (one cluster forms at
the fifth and the probe bitrate never improves afterwards), after which the
stored probe list holds 16 entries — more than the claimed cap of 15. -/
theorem probeList_exceeds_cap_counterexample :
    kMaxProbePackets <
      ((incomingPacketFeedbackVector initBweState (s3FirstPackets 16)).1).probes.length := by
  decide

/-- C2 amended: as long as no cluster forms from the extended list, packet
ingress keeps the probe list within 15 entries (on reaching the cap the
oldest entry is dropped); once a cluster has formed but fewer than three
have, an appended probe is retained without dropping the oldest, and the
list can exceed 15 entries. -/
theorem probeList_bounded_without_cluster (st : BweState) (arrival_time_ms : Int)
    (send_time_24bits payload_size ssrc : Nat) (probe_cluster_id : Int)
    (hlen : st.probes.length ≤ kMaxProbePackets)
    (hnc : computeClusters (st.probes ++
        [{ send_time_ms := sendTimeMsOfTimestamp
             (send_time_24bits <<< kAbsSendTimeInterArrivalUpshift),
           recv_time_ms := arrival_time_ms, payload_size := payload_size,
           cluster_id := probe_cluster_id }]) = []) :
    ((incomingPacketInfo st arrival_time_ms send_time_24bits payload_size ssrc
        probe_cluster_id).1).probes.length ≤ kMaxProbePackets := by
  simp only [incomingPacketInfo]
  rw [(updatePhase_frame _ _ _).2.1, (deltaPhase_frame _ _ _ _).2.1]
  have hpre := prePhase_probes st arrival_time_ms payload_size ssrc
  simp only [probePhase]
  split
  · simp only [processClusters]
    rw [hpre, hnc]
    simp only [List.isEmpty_nil, if_true]
    split
    · rename_i hcap
      simp only [List.length_tail, List.length_append, List.length_singleton]
      omega
    · rename_i hcap
      rw [List.length_append, List.length_singleton] at hcap
      simp only [List.length_append, List.length_singleton]
      omega
  · rw [hpre]
    exact hlen

/-- Witness for C2's amended theorem: the very first probe packet keeps the
list within the cap. -/
theorem probeList_bounded_without_cluster_witness :
    ((incomingPacketInfo initBweState 6 0 1200 0 0).1).probes.length ≤
      kMaxProbePackets :=
  probeList_bounded_without_cluster initBweState 6 0 1200 0 0 (by decide) (by decide)

/-- C1 counterexample: after the 4th packet of scenario S3 only three
inter-probe deltas exist, so no cluster (count ≥ 4) has formed, the rate
controller has no estimate, and the observer has not fired. -/
theorem s3_no_cluster_after_fourth_packet :
    (incomingPacketFeedbackVector initBweState (s3FirstPackets 4)).2 = [] ∧
    computeClusters
      ((incomingPacketFeedbackVector initBweState (s3FirstPackets 4)).1).probes = [] ∧
    aimdValidEstimate
      ((incomingPacketFeedbackVector initBweState (s3FirstPackets 4)).1).remote_rate
      = false := by
  decide

/-- C1 amended: in scenario S3 the cluster (count = 4, mean send delta 5 ms,
mean recv delta 6 ms, mean size 1200) forms after the 5th packet is ingested,
and exactly then the observer fires once with
`bitrate_bps = min(1200*8*1000/5, 1200*8*1000/6) = 1600000`. -/
theorem s3_cluster_and_callback_after_fifth_packet :
    (incomingPacketFeedbackVector initBweState (s3FirstPackets 5)).2 =
      [{ ssrcs := [0], bitrate_bps := 1600000 }] ∧
    computeClusters
      ((incomingPacketFeedbackVector initBweState (s3FirstPackets 5)).1).probes =
      [{ send_mean_ms := 5, recv_mean_ms := 6, mean_size := 1200, count := 4,
         num_above_min_delta := 4 }] ∧
    aimdLatestEstimate
      ((incomingPacketFeedbackVector initBweState (s3FirstPackets 5)).1).remote_rate
      = 1600000 ∧
    min (1200 * 8 * 1000 / 5) (1200 * 8 * 1000 / 6) = 1600000 := by
  decide

theorem lastSendTime_append (d : Int) (l : List Probe) (p : Probe) :
    lastSendTime d (l ++ [p]) = p.send_time_ms := by
  induction l generalizing d with
  | nil => rfl
  | cons q rest ih => exact ih q.send_time_ms

theorem lastRecvTime_append (d : Int) (l : List Probe) (p : Probe) :
    lastRecvTime d (l ++ [p]) = p.recv_time_ms := by
  induction l generalizing d with
  | nil => rfl
  | cons q rest ih => exact ih q.recv_time_ms

theorem ccStep_first (p : Probe) :
    computeClustersStep ccInit p =
      { clusters := [], current := emptyCluster,
        prev_send_time := p.send_time_ms, prev_recv_time := p.recv_time_ms,
        last_probe_cluster_id := p.cluster_id } := by
  simp [computeClustersStep, ccInit]

theorem ccStep_sameId (s : ClusterAccState) (p : Probe)
    (hlast : s.last_probe_cluster_id ≠ -1)
    (hid : p.cluster_id = s.last_probe_cluster_id)
    (hprev : 0 ≤ s.prev_send_time) :
    computeClustersStep s p =
      { clusters := s.clusters,
        current :=
          { send_mean_ms := s.current.send_mean_ms +
              ((p.send_time_ms - s.prev_send_time : Int) : ℚ),
            recv_mean_ms := s.current.recv_mean_ms +
              ((p.recv_time_ms - s.prev_recv_time : Int) : ℚ),
            mean_size := s.current.mean_size + p.payload_size,
            count := s.current.count + 1,
            num_above_min_delta := s.current.num_above_min_delta +
              if 1 ≤ p.send_time_ms - s.prev_send_time ∧
                 1 ≤ p.recv_time_ms - s.prev_recv_time then 1 else 0 },
        prev_send_time := p.send_time_ms, prev_recv_time := p.recv_time_ms,
        last_probe_cluster_id := p.cluster_id } := by
  simp only [computeClustersStep]
  rw [if_neg hlast, if_pos hprev, if_neg (not_not_intro hid),
      if_neg (not_not_intro hid)]
  split <;> rfl

theorem ccStep_boundary (s : ClusterAccState) (p : Probe)
    (hlast : s.last_probe_cluster_id ≠ -1)
    (hneq : p.cluster_id ≠ s.last_probe_cluster_id)
    (hprev : 0 ≤ s.prev_send_time) :
    computeClustersStep s p =
      { clusters :=
          if kMinClusterSize ≤ (ccBump s p).count then
            s.clusters ++ [finalizeCluster (ccBump s p)]
          else s.clusters,
        current :=
          { send_mean_ms := ((p.send_time_ms - s.prev_send_time : Int) : ℚ),
            recv_mean_ms := ((p.recv_time_ms - s.prev_recv_time : Int) : ℚ),
            mean_size := p.payload_size, count := 1, num_above_min_delta := 0 },
        prev_send_time := p.send_time_ms, prev_recv_time := p.recv_time_ms,
        last_probe_cluster_id := p.cluster_id } := by
  simp only [computeClustersStep, ccBump]
  rw [if_neg hlast, if_pos hprev, if_pos hneq, if_pos hneq]
  split <;> simp [emptyCluster]

theorem ccRun_sameId (l : List Probe) : ∀ (s : ClusterAccState),
    s.last_probe_cluster_id ≠ -1 →
    0 ≤ s.prev_send_time →
    (∀ p ∈ l, p.cluster_id = s.last_probe_cluster_id ∧ 0 ≤ p.send_time_ms) →
    l.foldl computeClustersStep s =
      { clusters := s.clusters,
        current :=
          { send_mean_ms := s.current.send_mean_ms +
              ((chainSendSum s.prev_send_time l : Int) : ℚ),
            recv_mean_ms := s.current.recv_mean_ms +
              ((chainRecvSum s.prev_recv_time l : Int) : ℚ),
            mean_size := s.current.mean_size + payloadSum l,
            count := s.current.count + l.length,
            num_above_min_delta := s.current.num_above_min_delta +
              chainAboveCount s.prev_send_time s.prev_recv_time l },
        prev_send_time := lastSendTime s.prev_send_time l,
        prev_recv_time := lastRecvTime s.prev_recv_time l,
        last_probe_cluster_id := s.last_probe_cluster_id } := by
  induction l with
  | nil =>
    intro s _ _ _
    simp [chainSendSum, chainRecvSum, payloadSum, chainAboveCount, lastSendTime,
          lastRecvTime]
  | cons p rest ih =>
    intro s hlast hprev hall
    have hp := hall p (List.mem_cons_self p rest)
    rw [List.foldl_cons, ccStep_sameId s p hlast hp.1 hprev]
    rw [ih _ (show p.cluster_id ≠ -1 by rw [hp.1]; exact hlast) hp.2
          (fun q hq => ⟨by rw [hp.1]; exact (hall q (List.mem_cons_of_mem p hq)).1,
                        (hall q (List.mem_cons_of_mem p hq)).2⟩)]
    simp only [ClusterAccState.mk.injEq, Cluster.mk.injEq, chainSendSum,
               chainRecvSum, chainAboveCount, payloadSum, lastSendTime,
               lastRecvTime, List.length_cons, List.map_cons, List.sum_cons]
    refine ⟨trivial, ⟨?_, ?_, ?_, ?_, ?_⟩, trivial, trivial, hp.1⟩
    · push_cast; ring
    · push_cast; ring
    · omega
    · omega
    · omega

theorem ccGroup_facts (l0 : List Probe) (pa : Probe) (a : Int) (ha : a ≠ -1)
    (h : ∀ p ∈ l0 ++ [pa], p.cluster_id = a ∧ 0 ≤ p.send_time_ms) :
    ((l0 ++ [pa]).foldl computeClustersStep ccInit).last_probe_cluster_id = a ∧
    ((l0 ++ [pa]).foldl computeClustersStep ccInit).prev_send_time
      = pa.send_time_ms ∧
    ((l0 ++ [pa]).foldl computeClustersStep ccInit).prev_recv_time
      = pa.recv_time_ms := by
  cases l0 with
  | nil =>
    have hpa := h pa (by simp)
    rw [List.nil_append, List.foldl_cons, List.foldl_nil, ccStep_first]
    exact ⟨hpa.1, rfl, rfl⟩
  | cons q l0t =>
    have hq := h q (by simp)
    rw [List.cons_append, List.foldl_cons, ccStep_first]
    rw [ccRun_sameId (l0t ++ [pa]) _
          (show q.cluster_id ≠ -1 by rw [hq.1]; exact ha) hq.2
          (fun p hp => ⟨by rw [hq.1]; exact (h p (by simp [hp])).1,
                        (h p (by simp [hp])).2⟩)]
    exact ⟨hq.1, lastSendTime_append _ _ _, lastRecvTime_append _ _ _⟩

/-- C9: when the cluster id changes between consecutive probes, the
cross-boundary delta (its send delta, recv delta, and the boundary probe's
payload) is accumulated into the new cluster rather than discarded: after a
probe list made of an old-id group `l0 ++ [pa]` and a new-id group
`pb :: l2`, the new current cluster counts `l2.length + 1` deltas (the
`l2.length` internal ones plus the cross-boundary one), its mean sums are the
delta chains starting at `pa`, its size sum includes `pb`'s payload — while
its `num_above_min_delta` covers only the post-boundary deltas, since that
increment lands before the reset.  When eligible (count ≥ 4) this cluster is
emitted by `computeClusters`. -/
theorem computeClusters_cross_boundary (l0 l2 : List Probe) (pa pb : Probe)
    (a b : Int) (ha : a ≠ -1) (hb : b ≠ -1) (hab : b ≠ a)
    (h1 : ∀ p ∈ l0 ++ [pa], p.cluster_id = a ∧ 0 ≤ p.send_time_ms)
    (h2 : ∀ p ∈ pb :: l2, p.cluster_id = b ∧ 0 ≤ p.send_time_ms) :
    (ccBoundaryState l0 pa pb l2).current.count = l2.length + 1 ∧
    (ccBoundaryState l0 pa pb l2).current.send_mean_ms =
      ((chainSendSum pa.send_time_ms (pb :: l2) : Int) : ℚ) ∧
    (ccBoundaryState l0 pa pb l2).current.recv_mean_ms =
      ((chainRecvSum pa.recv_time_ms (pb :: l2) : Int) : ℚ) ∧
    (ccBoundaryState l0 pa pb l2).current.mean_size = payloadSum (pb :: l2) ∧
    (ccBoundaryState l0 pa pb l2).current.num_above_min_delta =
      chainAboveCount pb.send_time_ms pb.recv_time_ms l2 ∧
    (kMinClusterSize ≤ l2.length + 1 →
      computeClusters ((l0 ++ [pa]) ++ pb :: l2) =
        (ccBoundaryState l0 pa pb l2).clusters ++
          [finalizeCluster (ccBoundaryState l0 pa pb l2).current]) := by
  have hpa := h1 pa (by simp)
  have hpb := h2 pb (List.mem_cons_self pb l2)
  have hG := ccGroup_facts l0 pa a ha h1
  have hfold : ccBoundaryState l0 pa pb l2 =
      l2.foldl computeClustersStep
        (computeClustersStep ((l0 ++ [pa]).foldl computeClustersStep ccInit) pb) := by
    simp [ccBoundaryState, List.foldl_append]
  have hstep := ccStep_boundary ((l0 ++ [pa]).foldl computeClustersStep ccInit) pb
      (by rw [hG.1]; exact ha) (by rw [hG.1, hpb.1]; exact hab)
      (by rw [hG.2.1]; exact hpa.2)
  rw [hG.2.1, hG.2.2] at hstep
  have hrun := ccRun_sameId l2
      (computeClustersStep ((l0 ++ [pa]).foldl computeClustersStep ccInit) pb)
      (by rw [hstep]; show pb.cluster_id ≠ -1; rw [hpb.1]; exact hb)
      (by rw [hstep]; exact hpb.2)
      (by intro q hq
          rw [hstep]
          exact ⟨by show q.cluster_id = pb.cluster_id
                    rw [hpb.1]; exact (h2 q (List.mem_cons_of_mem pb hq)).1,
                 (h2 q (List.mem_cons_of_mem pb hq)).2⟩)
  rw [hstep] at hrun
  have hw : ((l0 ++ [pa]) ++ pb :: l2).foldl computeClustersStep ccInit =
      l2.foldl computeClustersStep
        { clusters :=
            if kMinClusterSize ≤
                (ccBump ((l0 ++ [pa]).foldl computeClustersStep ccInit) pb).count then
              ((l0 ++ [pa]).foldl computeClustersStep ccInit).clusters ++
                [finalizeCluster
                  (ccBump ((l0 ++ [pa]).foldl computeClustersStep ccInit) pb)]
            else ((l0 ++ [pa]).foldl computeClustersStep ccInit).clusters,
          current :=
            { send_mean_ms := ((pb.send_time_ms - pa.send_time_ms : Int) : ℚ),
              recv_mean_ms := ((pb.recv_time_ms - pa.recv_time_ms : Int) : ℚ),
              mean_size := pb.payload_size, count := 1, num_above_min_delta := 0 },
          prev_send_time := pb.send_time_ms, prev_recv_time := pb.recv_time_ms,
          last_probe_cluster_id := pb.cluster_id } := by
    rw [List.foldl_append, List.foldl_cons, hstep]
  have hfinal := hw.trans hrun
  have hbs : ccBoundaryState l0 pa pb l2 =
      ((l0 ++ [pa]) ++ pb :: l2).foldl computeClustersStep ccInit := rfl
  refine ⟨?_, ?_, ?_, ?_, ?_, ?_⟩
  · rw [hbs, hfinal]
    exact Nat.add_comm 1 l2.length
  · rw [hbs, hfinal]
    show ((pb.send_time_ms - pa.send_time_ms : Int) : ℚ) +
        ((chainSendSum pb.send_time_ms l2 : Int) : ℚ) =
      ((chainSendSum pa.send_time_ms (pb :: l2) : Int) : ℚ)
    simp only [chainSendSum]
    push_cast
    ring
  · rw [hbs, hfinal]
    show ((pb.recv_time_ms - pa.recv_time_ms : Int) : ℚ) +
        ((chainRecvSum pb.recv_time_ms l2 : Int) : ℚ) =
      ((chainRecvSum pa.recv_time_ms (pb :: l2) : Int) : ℚ)
    simp only [chainRecvSum]
    push_cast
    ring
  · rw [hbs, hfinal]
    show pb.payload_size + payloadSum l2 = payloadSum (pb :: l2)
    simp [payloadSum]
  · rw [hbs, hfinal]
    exact Nat.zero_add _
  · intro hge
    have hcc : computeClusters ((l0 ++ [pa]) ++ pb :: l2) =
        if kMinClusterSize ≤ (ccBoundaryState l0 pa pb l2).current.count then
          (ccBoundaryState l0 pa pb l2).clusters ++
            [finalizeCluster (ccBoundaryState l0 pa pb l2).current]
        else (ccBoundaryState l0 pa pb l2).clusters := rfl
    rw [hcc]
    rw [if_pos (by rw [hbs, hfinal]; show kMinClusterSize ≤ 1 + l2.length; omega)]

/-- Witness for C9 at a concrete two-group probe list: the post-boundary
cluster counts the cross-boundary delta (count 4 from three internal deltas
plus the boundary one) and is emitted. -/
theorem computeClusters_cross_boundary_witness :
    (ccBoundaryState [] ⟨0, 0, 300, 0⟩ ⟨5, 6, 300, 1⟩
        [⟨10, 12, 300, 1⟩, ⟨15, 18, 300, 1⟩, ⟨20, 24, 300, 1⟩]).current.count = 4 ∧
    computeClusters ((([] : List Probe) ++ [⟨0, 0, 300, 0⟩]) ++ ⟨5, 6, 300, 1⟩ ::
        [⟨10, 12, 300, 1⟩, ⟨15, 18, 300, 1⟩, ⟨20, 24, 300, 1⟩]) =
      (ccBoundaryState [] ⟨0, 0, 300, 0⟩ ⟨5, 6, 300, 1⟩
          [⟨10, 12, 300, 1⟩, ⟨15, 18, 300, 1⟩, ⟨20, 24, 300, 1⟩]).clusters ++
        [finalizeCluster
          (ccBoundaryState [] ⟨0, 0, 300, 0⟩ ⟨5, 6, 300, 1⟩
              [⟨10, 12, 300, 1⟩, ⟨15, 18, 300, 1⟩,
               ⟨20, 24, 300, 1⟩]).current] := by
  have h := computeClusters_cross_boundary []
    [⟨10, 12, 300, 1⟩, ⟨15, 18, 300, 1⟩, ⟨20, 24, 300, 1⟩]
    ⟨0, 0, 300, 0⟩ ⟨5, 6, 300, 1⟩ 0 1
    (by decide) (by decide) (by decide) (by decide) (by decide)
  exact ⟨h.1, h.2.2.2.2.2 (by decide)⟩

end PercWebrtc
